import Mathlib

/-!
Verification of the ScopeBlind open-source client and gateway.

This file shallowly embeds the TypeScript sources of the repository:

* `packages/widget/src/voprf.ts` — the VOPRF client wrapper and the mock
  spend-proof generator (`generateSpendProof`);
* `packages/widget/src/holder-binding.ts` — device identity creation and
  request signing;
* `packages/widget/src/index.ts` — the widget (`ensureToken`, `fetch`);
* `gateway/src/index.ts` — the verify-then-forward gateway handler.

Bytes are modelled as `List Nat` (each element `< 256`), machine words as
`Nat` reduced `% 2 ^ 32` where 32-bit overflow matters.  Platform and
library primitives (WebCrypto key generation and signing, the
`@cloudflare/voprf-ts` blind/finalize internals, URL parsing, the network)
are parameters of the embedding, passed in explicitly as oracle outcomes;
everything the repository itself computes (SHA-256 via
`crypto.subtle.digest`, `btoa`, `TextEncoder`, header manipulation,
control flow) is implemented as an executable Lean function.
-/

namespace ScopeBlind

/-- Decidable equality of `Except` values, so that concrete runs can be
checked by `decide`. -/
instance exceptDecEq {ε α : Type} [DecidableEq ε] [DecidableEq α] :
    DecidableEq (Except ε α) := fun x y =>
  match x, y with
  | Except.ok a, Except.ok b =>
    if h : a = b then Decidable.isTrue (by rw [h])
    else Decidable.isFalse (fun hc => by cases hc; exact h rfl)
  | Except.error a, Except.error b =>
    if h : a = b then Decidable.isTrue (by rw [h])
    else Decidable.isFalse (fun hc => by cases hc; exact h rfl)
  | Except.ok _, Except.error _ => Decidable.isFalse (fun hc => by cases hc)
  | Except.error _, Except.ok _ => Decidable.isFalse (fun hc => by cases hc)

/-! ## Byte-level primitives: TextEncoder, SHA-256, btoa -/

/-- UTF-8 encoding of a single character, as the TextEncoder emits it. -/
def utf8Char (c : Char) : List Nat :=
  let n := c.toNat
  if n < 128 then [n]
  else if n < 2048 then [192 + n / 64, 128 + n % 64]
  else if n < 65536 then [224 + n / 4096, 128 + n / 64 % 64, 128 + n % 64]
  else [240 + n / 262144, 128 + n / 4096 % 64, 128 + n / 64 % 64, 128 + n % 64]

/-- Model of `new TextEncoder().encode(s)`: the UTF-8 bytes of `s`. -/
def textEncode (s : String) : List Nat :=
  (s.toList.map utf8Char).flatten

/-- The 32-bit modulus. -/
def w32 : Nat := 4294967296

/-- Right rotation of a 32-bit word. -/
def rotr32 (n x : Nat) : Nat :=
  (x / 2 ^ n + x % 2 ^ n * 2 ^ (32 - n)) % w32

/-- SHA-256 small sigma 0. -/
def sigSmall0 (x : Nat) : Nat := rotr32 7 x ^^^ rotr32 18 x ^^^ x / 2 ^ 3

/-- SHA-256 small sigma 1. -/
def sigSmall1 (x : Nat) : Nat := rotr32 17 x ^^^ rotr32 19 x ^^^ x / 2 ^ 10

/-- SHA-256 big sigma 0. -/
def sigBig0 (x : Nat) : Nat := rotr32 2 x ^^^ rotr32 13 x ^^^ rotr32 22 x

/-- SHA-256 big sigma 1. -/
def sigBig1 (x : Nat) : Nat := rotr32 6 x ^^^ rotr32 11 x ^^^ rotr32 25 x

/-- SHA-256 choose function. -/
def chf (x y z : Nat) : Nat := (x &&& y) ^^^ ((x ^^^ 4294967295) &&& z)

/-- SHA-256 majority function. -/
def majf (x y z : Nat) : Nat := (x &&& y) ^^^ (x &&& z) ^^^ (y &&& z)

/-- The 64 SHA-256 round constants, written in decimal. -/
def sha256K : List Nat :=
  [1116352408, 1899447441, 3049323471, 3921009573, 961987163,
   1508970993, 2453635748, 2870763221, 3624381080, 310598401,
   607225278, 1426881987, 1925078388, 2162078206, 2614888103,
   3248222580, 3835390401, 4022224774, 264347078, 604807628,
   770255983, 1249150122, 1555081692, 1996064986, 2554220882,
   2821834349, 2952996808, 3210313671, 3336571891, 3584528711,
   113926993, 338241895, 666307205, 773529912, 1294757372,
   1396182291, 1695183700, 1986661051, 2177026350, 2456956037,
   2730485921, 2820302411, 3259730800, 3345764771, 3516065817,
   3600352804, 4094571909, 275423344, 430227734, 506948616,
   659060556, 883997877, 958139571, 1322822218, 1537002063,
   1747873779, 1955562222, 2024104815, 2227730452, 2361852424,
   2428436474, 2756734187, 3204031479, 3329325298]

/-- The SHA-256 initial hash value, written in decimal. -/
def sha256H0 : List Nat :=
  [1779033703, 3144134277, 1013904242, 2773480762, 1359893119,
   2600822924, 528734635, 1541459225]

/-- Big-endian byte expansion of `x` into `k` bytes. -/
def beBytes : Nat → Nat → List Nat
  | 0, _ => []
  | k + 1, x => beBytes k (x / 256) ++ [x % 256]

/-- Big-endian 32-bit word from a list of bytes. -/
def wordOfBytes (bs : List Nat) : Nat :=
  bs.foldl (fun a b => a * 256 + b) 0

/-- SHA-256 padding: append 0x80, zeros to 56 mod 64, and the 64-bit
bit length, big endian. -/
def sha256Pad (msg : List Nat) : List Nat :=
  let len := msg.length
  let zeros := (64 + 55 - len % 64) % 64
  msg ++ 128 :: List.replicate zeros 0 ++ beBytes 8 (8 * len)

/-- The 64-entry SHA-256 message schedule of one 64-byte block. -/
def sha256Schedule (block : List Nat) : Array Nat :=
  let w0 := ((block.toChunks 4).map wordOfBytes).toArray
  (List.range 48).foldl
    (fun arr i =>
      let t := i + 16
      arr.push ((arr.getD (t - 16) 0 + sigSmall0 (arr.getD (t - 15) 0)
        + arr.getD (t - 7) 0 + sigSmall1 (arr.getD (t - 2) 0)) % w32))
    w0

/-- One SHA-256 compression step over the 8-word state. -/
def sha256Round (ws : Array Nat) (st : Nat × Nat × Nat × Nat × Nat × Nat × Nat × Nat)
    (t : Nat) : Nat × Nat × Nat × Nat × Nat × Nat × Nat × Nat :=
  let (a, b, c, d, e, f, g, h) := st
  let t1 := (h + sigBig1 e + chf e f g + sha256K.getD t 0 + ws.getD t 0) % w32
  let t2 := (sigBig0 a + majf a b c) % w32
  ((t1 + t2) % w32, a, b, c, (d + t1) % w32, e, f, g)

/-- SHA-256 compression of one 64-byte block into the running hash. -/
def sha256Block (h : List Nat) (block : List Nat) : List Nat :=
  let ws := sha256Schedule block
  let init := (h.getD 0 0, h.getD 1 0, h.getD 2 0, h.getD 3 0,
               h.getD 4 0, h.getD 5 0, h.getD 6 0, h.getD 7 0)
  let (a, b, c, d, e, f, g, hh) := (List.range 64).foldl (sha256Round ws) init
  [(h.getD 0 0 + a) % w32, (h.getD 1 0 + b) % w32, (h.getD 2 0 + c) % w32,
   (h.getD 3 0 + d) % w32, (h.getD 4 0 + e) % w32, (h.getD 5 0 + f) % w32,
   (h.getD 6 0 + g) % w32, (h.getD 7 0 + hh) % w32]

/-- SHA-256 digest of a byte sequence, as the 32 digest bytes.  Models
`crypto.subtle.digest("SHA-256", bytes)`. -/
def sha256 (msg : List Nat) : List Nat :=
  let final := ((sha256Pad msg).toChunks 64).foldl sha256Block sha256H0
  (final.map (beBytes 4)).flatten

/-- The base64 alphabet used by `btoa`. -/
def b64Char (n : Nat) : Char :=
  "ABCDEFGHIJKLMNOPQRSTUVWXYZabcdefghijklmnopqrstuvwxyz0123456789+/".toList.getD n '='

/-- Encode one group of at most three bytes into four base64 characters. -/
def b64Group : List Nat → List Char
  | [b0] => [b64Char (b0 / 4), b64Char (b0 % 4 * 16), '=', '=']
  | [b0, b1] => [b64Char (b0 / 4), b64Char (b0 % 4 * 16 + b1 / 16),
                 b64Char (b1 % 16 * 4), '=']
  | [b0, b1, b2] => [b64Char (b0 / 4), b64Char (b0 % 4 * 16 + b1 / 16),
                     b64Char (b1 % 16 * 4 + b2 / 64), b64Char (b2 % 64)]
  | _ => []

/-- Model of `btoa` applied to a byte sequence: standard base64 with
padding. -/
def base64encode (bs : List Nat) : String :=
  String.mk (((bs.toChunks 3).map b64Group).flatten)

/-! ## voprf.ts: generateSpendProof

Source (`packages/widget/src/voprf.ts`, lines 28-42): the "mock spend
proof" concatenates the token bytes with the UTF-8 bytes of `data`,
hashes the concatenation with SHA-256 and returns the base64 encoding of
the digest. -/

/-- Embedding of `generateSpendProof(token, data)`: base64 of
SHA-256(token bytes concatenated with the UTF-8 encoding of data). -/
def generateSpendProof (token : List Nat) (data : String) : String :=
  base64encode (sha256 (token ++ textEncode data))

/-! ## voprf.ts: ScopeBlindVoprfClient

Source (`packages/widget/src/voprf.ts`, lines 3-26).  The wrapper holds
the library OPRF client and a mutable field `finData` that stores the
blinding context between `generateBlindRequest` and `finalize`.  The
`@cloudflare/voprf-ts` primitives (`client.blind`, `client.finalize`,
`Evaluation.deserialize`) are library code outside the repository and are
passed in as an abstract interface `VoprfLib`; the wrapper logic itself —
storing `finData`, pairing it with the evaluation, and in particular the
fact that `finalize` never clears or replaces `finData` — is translated
directly. -/

/-- Abstract interface to the `@cloudflare/voprf-ts` library primitives
used by the wrapper: `blind` maps input bytes to a blinding context plus
the serialized evaluation request, `deserialize` parses an evaluation
(`none` models a deserialization throw), and `finalizeTokens` combines a
context with a parsed evaluation into the token bytes (`Except.error`
models a library throw). -/
structure VoprfLib (Ctx : Type) where
  blind : List Nat → Ctx × List Nat
  deserialize : List Nat → Option (List Nat)
  finalizeTokens : Ctx → List Nat → Except String (List Nat)

/-- The state of `ScopeBlindVoprfClient`: the single mutable field
`finData`, absent until the first blind step. -/
structure VoprfClientState (Ctx : Type) where
  finData : Option Ctx
deriving DecidableEq

namespace VoprfClient

/-- Embedding of `generateBlindRequest(input)`: blind the UTF-8 bytes of
`input`, store the returned finalize data in `finData`, and return the
serialized evaluation request. -/
def generateBlindRequest {Ctx : Type} (lib : VoprfLib Ctx)
    (st : VoprfClientState Ctx) (input : String) :
    List Nat × VoprfClientState Ctx :=
  let p := lib.blind (textEncode input)
  (p.2, { finData := some p.1 })

/-- Embedding of `finalize(evaluation)`: deserialize the evaluation (a
failure is a thrown `ProtocolError`), then call the library finalize with
the stored `finData`.  The returned state is the input state: the source
assigns nothing to `this.finData` in `finalize`, so the context is
retained afterwards. -/
def finalize {Ctx : Type} (lib : VoprfLib Ctx) (st : VoprfClientState Ctx)
    (evaluation : List Nat) :
    Except String (List Nat) × VoprfClientState Ctx :=
  match lib.deserialize evaluation with
  | none => (Except.error "ProtocolError: cannot deserialize evaluation", st)
  | some evalObj =>
    match st.finData with
    | none => (Except.error "finData is undefined", st)
    | some fd => (lib.finalizeTokens fd evalObj, st)

end VoprfClient

/-- A concrete instantiation of the library interface for counterexample
runs: the blinding context is the input bytes themselves and finalize
concatenates context and evaluation. -/
def libDemo : VoprfLib (List Nat) where
  blind := fun input => (input, input)
  deserialize := fun bs => some bs
  finalizeTokens := fun fd ev => Except.ok (fd ++ ev)

/-! ## gateway/src/index.ts: the verify-then-forward handler

Source (`gateway/src/index.ts`, lines 35-117).  The handler reads the
`X-ScopeBlind-Proof` and `X-ScopeBlind-Token` headers; if either is
present it calls the verifier and blocks on any non-2xx response (403)
or thrown error (503, which also covers a 2xx body that fails to parse
as JSON, since `verifyResponse.json()` sits inside the same try block).
Otherwise, and after a successful verification, it builds the forwarded
request: backend origin plus the inbound path and query, all headers
except those whose lowercased name starts with `x-scopeblind`, `Host`
replaced by the backend host, and the inbound body for non-GET/HEAD
methods.  A backend fetch failure yields 502. -/

/-- Model of the `ok` flag of a fetch `Response`: status in the 2xx
range. -/
def respOk (status : Nat) : Bool := 200 ≤ status && status < 300

/-- Model of `toLowerCase()` on a header name: lower-case the characters
one by one (header names are ASCII). -/
def lowerName (s : String) : String := ⟨s.data.map Char.toLower⟩

/-- Model of `String.startsWith` of JavaScript: character-list prefix
test. -/
def strStartsWith (s p : String) : Bool := List.isPrefixOf p.data s.data

/-- Case-insensitive header lookup, as `c.req.header` and `Headers.get`
perform it. -/
def headerLookup (headers : List (String × String)) (name : String) :
    Option String :=
  (headers.find? (fun kv => lowerName kv.1 == lowerName name)).map
    (fun kv => kv.2)

/-- Model of `Headers.set`: replace any entry with the same
case-insensitive name and add the new entry.  The model prepends instead
of appending; every claim below reads headers through `headerLookup` or
membership, which the position does not affect because the name is unique
after the filter. -/
def setHeader (headers : List (String × String)) (name value : String) :
    List (String × String) :=
  (name, value) :: headers.filter (fun kv => lowerName kv.1 ≠ lowerName name)

namespace Gateway

/-- The backend target, as the platform URL parser produces it from the
`BACKEND_URL` binding: `new URL(c.req.path, backendUrl)` keeps the origin
and host of the base URL. -/
structure BackendTarget where
  origin : String
  host : String
deriving DecidableEq

/-- The gateway environment bindings; `none` models an unset
`BACKEND_URL`. -/
structure Bindings where
  backendUrl : Option BackendTarget

/-- An inbound request as the handler reads it: method, path (`c.req.path`),
query string, headers, body. -/
structure Req where
  method : String
  path : String
  search : String
  headers : List (String × String)
  body : Option String

/-- The JSON body of a verifier response: the `allowed` flag and optional
reason.  The handler parses this value but never reads its fields. -/
structure VerifyJson where
  allowed : Bool
  reason : Option String
deriving DecidableEq

/-- Outcome of the verifier fetch: a thrown error (service unreachable)
or a response with a status, a text body, and the JSON parse of the body
(`none` when `json()` would throw). -/
inductive VerifierOutcome where
  | unreachable
  | response (status : Nat) (text : String) (json : Option VerifyJson)
deriving DecidableEq

/-- Outcome of the backend fetch: a thrown error with a message, or a
response. -/
inductive BackendOutcome where
  | unreachable (msg : String)
  | response (status : Nat) (statusText : String) (body : Option String)
      (headers : List (String × String))
deriving DecidableEq

/-- The request the gateway hands to the backend fetch. -/
structure Forwarded where
  backend : BackendTarget
  method : String
  path : String
  search : String
  headers : List (String × String)
  body : Option String
deriving DecidableEq

/-- A gateway response body: either one of the JSON error objects the
handler builds (`error` plus optional `details`) or the backend body
passed through. -/
inductive RespBody where
  | json (error : String) (details : Option String)
  | passthrough (body : Option String)
deriving DecidableEq

/-- A gateway response. -/
structure Resp where
  status : Nat
  body : RespBody
  headers : List (String × String)
deriving DecidableEq

/-- The verification step of the handler (source lines 40-76): with a
proof or token header present, a thrown verifier call or an unparseable
2xx body yields the 503 response, a non-2xx verifier status yields the
403 response with the error detail; otherwise, and with no protocol
header at all, verification imposes nothing (`none`). -/
def verdictOf (verifier : VerifierOutcome) (hasHeader : Bool) : Option Resp :=
  if hasHeader then
    match verifier with
    | VerifierOutcome.unreachable =>
      some { status := 503,
             body := RespBody.json "Verification service unavailable" none,
             headers := [] }
    | VerifierOutcome.response status text json =>
      if respOk status = false then
        some { status := 403,
               body := RespBody.json "Invalid ScopeBlind proof" (some text),
               headers := [] }
      else
        match json with
        | none =>
          some { status := 503,
                 body := RespBody.json "Verification service unavailable" none,
                 headers := [] }
        | some _ => none
  else none

/-- The forwarded request the handler builds (source lines 84-101): the
inbound path and query on the backend target, all headers except those
whose lower-cased name starts with `x-scopeblind`, `Host` replaced by
the backend host, and the inbound body for non-GET/HEAD methods. -/
def forwardOf (target : BackendTarget) (req : Req) : Forwarded :=
  { backend := target
    method := req.method
    path := req.path
    search := req.search
    headers := setHeader (req.headers.filter
      (fun kv => !(strStartsWith (lowerName kv.1) "x-scopeblind")))
      "Host" target.host
    body :=
      if req.method ≠ "GET" ∧ req.method ≠ "HEAD" then req.body
      else none }

/-- Embedding of the `/api/*` handler.  The second component of the
result is the request handed to the backend fetch, `none` when the
backend was never called. -/
def handleApi (env : Bindings) (verifier : VerifierOutcome)
    (backend : BackendOutcome) (req : Req) : Resp × Option Forwarded :=
  let proofHeader := headerLookup req.headers "X-ScopeBlind-Proof"
  let tokenHeader := headerLookup req.headers "X-ScopeBlind-Token"
  match verdictOf verifier (proofHeader.isSome || tokenHeader.isSome) with
  | some r => (r, none)
  | none =>
    match env.backendUrl with
    | none =>
      ({ status := 500, body := RespBody.json "BACKEND_URL not configured" none,
         headers := [] }, none)
    | some target =>
      match backend with
      | BackendOutcome.unreachable msg =>
        ({ status := 502, body := RespBody.json "Backend unreachable" (some msg),
           headers := [] }, some (forwardOf target req))
      | BackendOutcome.response s stext b hs =>
        ({ status := s, body := RespBody.passthrough b,
           headers := setHeader hs "Access-Control-Allow-Origin" "*" },
         some (forwardOf target req))

end Gateway

/-! ## holder-binding.ts: device identity and request signing

Source (`packages/widget/src/holder-binding.ts`).  The store keeps a
public key and a non-exportable private-key handle in the `identity`
object store of the `scopeblind` IndexedDB, and a fallback device id
under the `sb_device_id` localStorage key.  WebCrypto primitives
(`indexedDB.open`, `crypto.subtle.generateKey` + `exportKey`,
`crypto.subtle.sign`, `crypto.randomUUID`) are platform calls, modelled
as oracle outcomes in `HolderBinding.Env`; the control flow around them —
the try/catch fallbacks, the persisted-identity reuse, the degradation of
signing failures to `null` — is translated from the source. -/

/-- The kind of a device identity, `type` field of the source
interface. -/
inductive IdentityKind where
  | webcrypto
  | fallback
deriving DecidableEq

/-- Embedding of the `DeviceIdentity` interface. -/
structure DeviceIdentity where
  kind : IdentityKind
  publicKey : Option (List Nat)
  deviceId : Option String
deriving DecidableEq

namespace HolderBinding

/-- A value stored in the IndexedDB `identity` store: exported public-key
bytes, or an opaque non-exportable private-key handle (a `CryptoKey`
reference, never raw key material). -/
inductive IdbVal where
  | bytes (bs : List Nat)
  | keyHandle (h : Nat)
deriving DecidableEq

/-- Durable client-side state: the IndexedDB `identity` object store and
the `sb_device_id` localStorage entry. -/
structure St where
  idb : List (String × IdbVal)
  deviceIdLS : Option String
deriving DecidableEq

/-- Platform oracle outcomes for one holder-binding operation:
availability of `window.crypto.subtle`, the result of `indexedDB.open`,
the result of key generation plus public-key export (`spki` bytes and
the private-key handle), the next `crypto.randomUUID()`, and the
signing primitive as a function of the exact bytes being signed. -/
structure Env where
  subtleAvailable : Bool
  openDB : Except String Unit
  generateKey : Except String (List Nat × Nat)
  uuid : String
  sign : List Nat → Except String (List Nat)

/-- Read a key from the IndexedDB object store. -/
def idbGet (st : St) (key : String) : Option IdbVal :=
  (st.idb.find? (fun kv => kv.1 == key)).map (fun kv => kv.2)

/-- Write a key into the IndexedDB object store. -/
def idbPut (st : St) (key : String) (v : IdbVal) : St :=
  { st with idb := (key, v) :: st.idb.filter (fun kv => kv.1 ≠ key) }

/-- Embedding of `getWebCryptoIdentity()`: open the database, reuse a
stored public key if present, otherwise generate a keypair, persist the
public key bytes and the private-key handle, and return the strong
identity.  `Except.error` models a throw (caught by the caller).  A
stored non-bytes value under `publicKey` is truthy in the source and is
returned as-is; the model returns the identity without key bytes in that
unreachable case. -/
def getWebCryptoIdentity (env : Env) (st : St) :
    Except String (DeviceIdentity × St) :=
  match env.openDB with
  | Except.error e => Except.error e
  | Except.ok _ =>
    match idbGet st "publicKey" with
    | some (IdbVal.bytes pk) =>
      Except.ok ({ kind := IdentityKind.webcrypto, publicKey := some pk,
                   deviceId := none }, st)
    | some (IdbVal.keyHandle _) =>
      Except.ok ({ kind := IdentityKind.webcrypto, publicKey := none,
                   deviceId := none }, st)
    | none =>
      match env.generateKey with
      | Except.error e => Except.error e
      | Except.ok (pub, priv) =>
        let st1 := idbPut st "publicKey" (IdbVal.bytes pub)
        let st2 := idbPut st1 "privateKey" (IdbVal.keyHandle priv)
        Except.ok ({ kind := IdentityKind.webcrypto, publicKey := some pub,
                     deviceId := none }, st2)

/-- Embedding of `getFallbackIdentity()`: reuse the stored
`sb_device_id`, otherwise store a fresh random identifier. -/
def getFallbackIdentity (env : Env) (st : St) : DeviceIdentity × St :=
  match st.deviceIdLS with
  | some dId =>
    ({ kind := IdentityKind.fallback, publicKey := none,
       deviceId := some dId }, st)
  | none =>
    ({ kind := IdentityKind.fallback, publicKey := none,
       deviceId := some env.uuid },
     { st with deviceIdLS := some env.uuid })

/-- Embedding of `getOrCreateDeviceIdentity()`: try the WebCrypto
identity when `crypto.subtle` exists, fall back to the device-id
identity when it is absent or when the attempt throws. -/
def getOrCreateDeviceIdentity (env : Env) (st : St) : DeviceIdentity × St :=
  if env.subtleAvailable then
    match getWebCryptoIdentity env st with
    | Except.ok r => r
    | Except.error _ => getFallbackIdentity env st
  else getFallbackIdentity env st

/-- Embedding of `signRequest(method, path, body)`.  Every thrown error
is caught and becomes `none`; a missing private key returns `none`
directly; otherwise the canonical string `method:path:body` is signed
and the signature base64-encoded.  A stored non-handle value under
`privateKey` would make `crypto.subtle.sign` throw, hence `none`. -/
def signRequest (env : Env) (st : St) (method path : String)
    (body : Option String) : Option String :=
  match env.openDB with
  | Except.error _ => none
  | Except.ok _ =>
    match idbGet st "privateKey" with
    | none => none
    | some (IdbVal.bytes _) => none
    | some (IdbVal.keyHandle _) =>
      let canonical := method ++ ":" ++ path ++ ":" ++ body.getD ""
      match env.sign (textEncode canonical) with
      | Except.error _ => none
      | Except.ok sig => some (base64encode sig)

end HolderBinding

/-! ## widget index.ts: ensureToken and fetch

Source (`packages/widget/src/index.ts`).  The widget keeps the current
token in the `token` field and one persisted token per site id under the
`sb_token_SITEID` localStorage key.  `ensureToken` returns the in-memory
token, else the stored token, else mints: blind, POST the encoded
request to the issuer, decode the evaluation, finalize, cache in memory
and storage.  Every failure is rethrown and nothing is cached; the
issuer is contacted at most once.  `fetch` ensures a token, derives the
spend proof over `method:pathname`, routes to
`proxyUrl/siteId + pathname`, attaches the protocol headers, performs
the network call, and surfaces 429/402 through the quota modal while
returning the response unchanged. -/

namespace Widget

/-- The widget configuration after `init` fills the defaults. -/
structure Config where
  siteId : String
  issuerUrl : String
  proxyUrl : String
  showBadge : Bool

/-- Widget state: the in-memory token (`this.token`), the localStorage
token entries keyed by site id (already parsed from their JSON array
form; storage tampering would make `JSON.parse` throw and is outside the
claims), and the device identity set by `init`. -/
structure State where
  token : Option (List Nat)
  storage : List (String × List Nat)
  deviceIdentity : Option DeviceIdentity
deriving DecidableEq

/-- The issuer `/issue` HTTP response: status, the JSON `evalB64` field
(`none` when the body does not parse), and the raw text used in error
messages. -/
structure IssuerResp where
  status : Nat
  bodyEvalB64 : Option String
  text : String
deriving DecidableEq

/-- Oracle outcomes for one mint attempt: the fresh `crypto.randomUUID`
input, the VOPRF blind step (request bytes or a thrown `CryptoError`),
the issuer fetch (a response or a thrown network error), and the
combined base64 decode / deserialize / VOPRF finalize of the returned
evaluation (token bytes or a thrown error). -/
structure MintEnv where
  uuid : String
  blindOutcome : Except String (List Nat)
  issuerOutcome : Except String IssuerResp
  finalizeOutcome : Except String (List Nat)

/-- Read the `sb_token_SITEID` localStorage entry. -/
def lookupStore (storage : List (String × List Nat)) (siteId : String) :
    Option (List Nat) :=
  (storage.find? (fun kv => kv.1 == siteId)).map (fun kv => kv.2)

/-- Write the `sb_token_SITEID` localStorage entry. -/
def putStore (storage : List (String × List Nat)) (siteId : String)
    (tok : List Nat) : List (String × List Nat) :=
  (siteId, tok) :: storage.filter (fun kv => kv.1 ≠ siteId)

/-- Embedding of `ensureToken()`.  The result is the returned token or
thrown error, the updated widget state, and the number of issuer `/issue`
calls made (0 or 1) — the instrumentation that makes "mint is not
retried" statable.  The definition reads no clock or epoch: the source
consults none. -/
def ensureToken (siteId : String) (env : MintEnv) (st : State) :
    Except String (List Nat) × State × Nat :=
  match st.token with
  | some t => (Except.ok t, st, 0)
  | none =>
    match lookupStore st.storage siteId with
    | some t => (Except.ok t, { st with token := some t }, 0)
    | none =>
      match env.blindOutcome with
      | Except.error e => (Except.error e, st, 0)
      | Except.ok _request =>
        match env.issuerOutcome with
        | Except.error e => (Except.error e, st, 1)
        | Except.ok resp =>
          if respOk resp.status = false then
            (Except.error ("Failed to issue token: " ++ toString resp.status
              ++ " - " ++ resp.text), st, 1)
          else
            match resp.bodyEvalB64 with
            | none => (Except.error "issuer response body is not JSON", st, 1)
            | some _evalB64 =>
              match env.finalizeOutcome with
              | Except.error e => (Except.error e, st, 1)
              | Except.ok tok =>
                (Except.ok tok,
                 { st with token := some tok,
                           storage := putStore st.storage siteId tok }, 1)

/-- The parsed form of `new URL(url, window.location.origin)`: the only
components the widget reads.  URL parsing itself is a platform
primitive. -/
structure URLParts where
  pathname : String
  search : String

/-- The options object handed to `fetch`. -/
structure FetchOptions where
  method : Option String
  body : Option String
  headers : List (String × String)

/-- A network response as the widget sees it: the status plus an opaque
payload standing for everything else (body, headers), enough to state
that the response is returned unmodified. -/
structure NetResponse where
  status : Nat
  payload : String
deriving DecidableEq

/-- Oracle outcomes for one widget `fetch`: the mint environment, the
holder-binding state and platform oracles used by `signRequest`, and the
proxied network call (response or thrown transport error). -/
structure FetchEnv where
  mint : MintEnv
  hb : HolderBinding.Env
  hbSt : HolderBinding.St
  network : Except String NetResponse

/-- Observable effects of one widget `fetch`: the URL handed to the
platform fetch, the headers attached, and whether the quota-exceeded
modal was shown (`ui.showQuotaExceeded`). -/
structure FetchTrace where
  targetUrl : String
  headers : List (String × String)
  quotaShown : Bool
deriving DecidableEq

/-- Embedding of the widget `fetch(url, options)`.  Mirrors the source
order: ensure token, compute `method`, `path` (the pathname only),
`bodyString`, the spend proof over `method:path`, the proxied target
URL, the protocol headers (signature, else fallback device id), then the
network call; 429/402 shows the quota modal; the response is returned
as-is; any thrown error propagates. -/
def widgetFetch (cfg : Config) (env : FetchEnv) (st : State) (u : URLParts)
    (options : FetchOptions) :
    Except String (NetResponse × FetchTrace) × State :=
  match ensureToken cfg.siteId env.mint st with
  | (Except.error e, st1, _) => (Except.error e, st1)
  | (Except.ok _tok, st1, _) =>
    let method := options.method.getD "GET"
    let path := u.pathname
    let bodyString := options.body
    let token := st1.token.getD []
    let proof := generateSpendProof token (method ++ ":" ++ path)
    let targetUrl := cfg.proxyUrl ++ "/" ++ cfg.siteId ++ path
    let headers1 := setHeader (setHeader options.headers
      "X-ScopeBlind-Proof" proof) "X-ScopeBlind-Site" cfg.siteId
    let signature := HolderBinding.signRequest env.hb env.hbSt method path
      bodyString
    let headers2 :=
      match signature with
      | some sig => setHeader headers1 "X-ScopeBlind-Signature" sig
      | none =>
        match st1.deviceIdentity with
        | some di =>
          match di.deviceId with
          | some dId =>
            if di.kind = IdentityKind.fallback then
              setHeader headers1 "X-ScopeBlind-Device" dId
            else headers1
          | none => headers1
        | none => headers1
    match env.network with
    | Except.error e => (Except.error e, st1)
    | Except.ok r =>
      let quota := r.status == 429 || r.status == 402
      (Except.ok (r, { targetUrl := targetUrl, headers := headers2,
                       quotaShown := quota }), st1)

end Widget

/-! ## General lemmas about the header model -/

/-- Finding under a predicate ignores a filter that keeps every element
satisfying the predicate. -/
theorem find?_filter_of_imp {α : Type} (p q : α → Bool) (l : List α)
    (h : ∀ x, p x = true → q x = true) :
    (l.filter q).find? p = l.find? p := by
  induction l with
  | nil => rfl
  | cons x xs ih =>
    cases hq : q x with
    | true =>
      simp only [List.filter_cons, hq, if_true, List.find?_cons]
      cases hp : p x <;> simp [hp, ih]
    | false =>
      have hp : p x = false := by
        cases hpx : p x
        · rfl
        · exact absurd (h x hpx) (by simp [hq])
      simp only [List.filter_cons, hq, if_false, List.find?_cons]
      simp [hp, ih]

/-- Looking up the header just set returns its value. -/
theorem headerLookup_setHeader_self (headers : List (String × String))
    (name value : String) :
    headerLookup (setHeader headers name value) name = some value := by
  simp [headerLookup, setHeader, List.find?_cons]

/-- Setting one header does not change the lookup of a header with a
different case-folded name. -/
theorem headerLookup_setHeader_ne (headers : List (String × String))
    (name value name2 : String) (h : lowerName name ≠ lowerName name2) :
    headerLookup (setHeader headers name value) name2 =
      headerLookup headers name2 := by
  unfold headerLookup setHeader
  rw [List.find?_cons]
  have hne : (lowerName name == lowerName name2) = false := by
    simpa using h
  simp only [hne]
  rw [find?_filter_of_imp]
  intro kv hkv
  have : lowerName kv.1 = lowerName name2 := by simpa using hkv
  simp [this, Ne.symm h]

/-- Every member of the header list after a set is the new entry or an
original member. -/
theorem setHeader_mem {headers : List (String × String)}
    {name value : String} {kv : String × String}
    (h : kv ∈ setHeader headers name value) :
    kv = (name, value) ∨ kv ∈ headers := by
  rcases List.mem_cons.mp h with h1 | h1
  · exact Or.inl h1
  · exact Or.inr (List.mem_filter.mp h1).1

/-! ## Concrete demo values used by witnesses and counterexamples -/

/-- A demo inbound gateway request carrying a proof header, a query
string and a body. -/
def reqDemo : Gateway.Req :=
  { method := "POST", path := "/api/chat", search := "?q=1",
    headers := [("X-ScopeBlind-Proof", "p"), ("Content-Type", "application/json")],
    body := some "hello" }

/-- Demo gateway bindings with a configured backend. -/
def bindingsDemo : Gateway.Bindings :=
  { backendUrl := some { origin := "https://api.example.com", host := "api.example.com" } }

/-- A verifier JSON body that denies the request: `allowed` is false. -/
def deniedJsonDemo : Gateway.VerifyJson :=
  { allowed := false, reason := some "quota exceeded" }

/-- A demo backend response. -/
def backendRespDemo : Gateway.BackendOutcome :=
  Gateway.BackendOutcome.response 200 "OK" (some "result")
    [("Content-Type", "application/json")]

/-! ## Claim theorems -/

/-- C1: for every inbound request to the `/api/*` route carrying a proof
or token header, a non-2xx verifier response makes the gateway respond
403 with the error detail of the verifier without calling the backend,
and a thrown verifier call (service unreachable) makes it respond 503
without calling the backend. -/
theorem gateway_verify_failure_blocks
    (env : Gateway.Bindings) (verifier : Gateway.VerifierOutcome)
    (backend : Gateway.BackendOutcome) (req : Gateway.Req)
    (hhdr : headerLookup req.headers "X-ScopeBlind-Proof" ≠ none ∨
            headerLookup req.headers "X-ScopeBlind-Token" ≠ none) :
    (∀ status text json,
      verifier = Gateway.VerifierOutcome.response status text json →
      respOk status = false →
      (Gateway.handleApi env verifier backend req).1.status = 403 ∧
      (Gateway.handleApi env verifier backend req).1.body =
        Gateway.RespBody.json "Invalid ScopeBlind proof" (some text) ∧
      (Gateway.handleApi env verifier backend req).2 = none) ∧
    (verifier = Gateway.VerifierOutcome.unreachable →
      (Gateway.handleApi env verifier backend req).1.status = 503 ∧
      (Gateway.handleApi env verifier backend req).2 = none) := by
  have hp : ((headerLookup req.headers "X-ScopeBlind-Proof").isSome
      || (headerLookup req.headers "X-ScopeBlind-Token").isSome) = true := by
    rcases hhdr with h | h
    · simp [Option.isSome_iff_ne_none, h]
    · simp [Option.isSome_iff_ne_none, h]
  constructor
  · rintro status text json rfl hbad
    simp [Gateway.handleApi, Gateway.verdictOf, hp, hbad]
  · rintro rfl
    simp [Gateway.handleApi, Gateway.verdictOf, hp]

/-- C1 witness: at the demo request and a 500 verifier response, the
gateway answers 403 with the verifier detail and the backend is not
called. -/
theorem gateway_verify_failure_blocks_witness :
    (Gateway.handleApi bindingsDemo
      (Gateway.VerifierOutcome.response 500 "bad proof" none)
      backendRespDemo reqDemo).1.status = 403 ∧
    (Gateway.handleApi bindingsDemo
      (Gateway.VerifierOutcome.response 500 "bad proof" none)
      backendRespDemo reqDemo).1.body =
      Gateway.RespBody.json "Invalid ScopeBlind proof" (some "bad proof") ∧
    (Gateway.handleApi bindingsDemo
      (Gateway.VerifierOutcome.response 500 "bad proof" none)
      backendRespDemo reqDemo).2 = none :=
  (gateway_verify_failure_blocks bindingsDemo
    (Gateway.VerifierOutcome.response 500 "bad proof" none)
    backendRespDemo reqDemo (Or.inl (by decide))).1
    500 "bad proof" none rfl (by decide)

/-- C9: for every inbound request carrying a proof or token header whose
verifier call returns a 2xx response with any JSON body — the `allowed`
field included, in particular `allowed = false` — the gateway forwards
the request to the backend: the handler never reads the parsed body. -/
theorem gateway_forwards_on_2xx_body_ignored
    (env : Gateway.Bindings) (verifier : Gateway.VerifierOutcome)
    (backend : Gateway.BackendOutcome) (req : Gateway.Req)
    (target : Gateway.BackendTarget) (status : Nat) (text : String)
    (j : Gateway.VerifyJson)
    (hhdr : headerLookup req.headers "X-ScopeBlind-Proof" ≠ none ∨
            headerLookup req.headers "X-ScopeBlind-Token" ≠ none)
    (hver : verifier = Gateway.VerifierOutcome.response status text (some j))
    (hok : respOk status = true)
    (hbackend : env.backendUrl = some target) :
    ∃ fwd, (Gateway.handleApi env verifier backend req).2 = some fwd := by
  have hp : ((headerLookup req.headers "X-ScopeBlind-Proof").isSome
      || (headerLookup req.headers "X-ScopeBlind-Token").isSome) = true := by
    rcases hhdr with h | h
    · simp [Option.isSome_iff_ne_none, h]
    · simp [Option.isSome_iff_ne_none, h]
  subst hver
  have hv : Gateway.verdictOf
      (Gateway.VerifierOutcome.response status text (some j))
      ((headerLookup req.headers "X-ScopeBlind-Proof").isSome
        || (headerLookup req.headers "X-ScopeBlind-Token").isSome) = none := by
    unfold Gateway.verdictOf
    simp [hok]
  cases backend <;>
    exact ⟨Gateway.forwardOf target req,
      by simp [Gateway.handleApi, hv, hbackend]⟩

/-- C9 witness: a 200 verifier response whose body says `allowed: false`
is still forwarded to the backend. -/
theorem gateway_forwards_on_2xx_body_ignored_witness :
    ∃ fwd, (Gateway.handleApi bindingsDemo
      (Gateway.VerifierOutcome.response 200 "" (some deniedJsonDemo))
      backendRespDemo reqDemo).2 = some fwd :=
  gateway_forwards_on_2xx_body_ignored bindingsDemo
    (Gateway.VerifierOutcome.response 200 "" (some deniedJsonDemo))
    backendRespDemo reqDemo
    { origin := "https://api.example.com", host := "api.example.com" }
    200 "" deniedJsonDemo (Or.inl (by decide)) rfl (by decide) (by decide)

/-- C3: every request the gateway hands to the backend keeps the inbound
method, path, query string and body (GET and HEAD requests carry no body
at the fetch layer), carries no header whose lower-cased name starts
with `x-scopeblind`, and a backend fetch failure after forwarding makes
the gateway respond 502. -/
theorem gateway_forward_preserves_request
    (env : Gateway.Bindings) (verifier : Gateway.VerifierOutcome)
    (backend : Gateway.BackendOutcome) (req : Gateway.Req)
    (hbody : req.method = "GET" ∨ req.method = "HEAD" → req.body = none) :
    (∀ fwd, (Gateway.handleApi env verifier backend req).2 = some fwd →
      fwd.method = req.method ∧ fwd.path = req.path ∧
      fwd.search = req.search ∧ fwd.body = req.body ∧
      ∀ kv ∈ fwd.headers, strStartsWith (lowerName kv.1) "x-scopeblind" = false) ∧
    (∀ msg fwd, backend = Gateway.BackendOutcome.unreachable msg →
      (Gateway.handleApi env verifier backend req).2 = some fwd →
      (Gateway.handleApi env verifier backend req).1.status = 502) := by
  have hfwd : ∀ target : Gateway.BackendTarget,
      (Gateway.forwardOf target req).method = req.method ∧
      (Gateway.forwardOf target req).path = req.path ∧
      (Gateway.forwardOf target req).search = req.search ∧
      (Gateway.forwardOf target req).body = req.body ∧
      ∀ kv ∈ (Gateway.forwardOf target req).headers,
        strStartsWith (lowerName kv.1) "x-scopeblind" = false := by
    intro target
    refine ⟨rfl, rfl, rfl, ?_, ?_⟩
    · show (if req.method ≠ "GET" ∧ req.method ≠ "HEAD" then req.body
        else none) = req.body
      by_cases hm : req.method ≠ "GET" ∧ req.method ≠ "HEAD"
      · simp [hm]
      · push_neg at hm
        rcases Classical.em (req.method = "GET") with hg | hg
        · simp [hg, (hbody (Or.inl hg)).symm]
        · have hh := hm hg
          simp [hg, hh, (hbody (Or.inr hh)).symm]
    · intro kv hkv
      rcases setHeader_mem hkv with h1 | h1
      · subst h1
        exact (by decide : strStartsWith (lowerName "Host") "x-scopeblind" = false)
      · have := (List.mem_filter.mp h1).2
        simpa using this
  have hshape : ∀ fwd, (Gateway.handleApi env verifier backend req).2 = some fwd →
      ∃ target, fwd = Gateway.forwardOf target req := by
    intro fwd hf
    simp only [Gateway.handleApi] at hf
    generalize Gateway.verdictOf verifier
      ((headerLookup req.headers "X-ScopeBlind-Proof").isSome
        || (headerLookup req.headers "X-ScopeBlind-Token").isSome) = v at hf
    cases v with
    | some r => simp at hf
    | none =>
      cases hb : env.backendUrl with
      | none => rw [hb] at hf; simp at hf
      | some target =>
        rw [hb] at hf
        cases backend with
        | unreachable msg =>
          simp only [Option.some.injEq] at hf
          exact ⟨target, hf.symm⟩
        | response s stext2 b hs =>
          simp only [Option.some.injEq] at hf
          exact ⟨target, hf.symm⟩
  constructor
  · intro fwd hf
    obtain ⟨target, rfl⟩ := hshape fwd hf
    exact hfwd target
  · intro msg fwd hbk hf
    subst hbk
    simp only [Gateway.handleApi] at hf ⊢
    generalize Gateway.verdictOf verifier
      ((headerLookup req.headers "X-ScopeBlind-Proof").isSome
        || (headerLookup req.headers "X-ScopeBlind-Token").isSome) = v at hf ⊢
    cases v with
    | some r => simp at hf
    | none =>
      cases hb : env.backendUrl with
      | none => rw [hb] at hf; simp at hf
      | some target => rfl

/-- C3 witness: at the demo request (method POST, query `?q=1`, body
present, one protocol and one ordinary header), every forwarded request
preserves method, path, query and body and carries no protocol header,
and an unreachable backend after forwarding yields 502. -/
theorem gateway_forward_preserves_request_witness :
    (∀ fwd, (Gateway.handleApi bindingsDemo
        (Gateway.VerifierOutcome.response 200 "" (some deniedJsonDemo))
        (Gateway.BackendOutcome.unreachable "connect ECONNREFUSED")
        reqDemo).2 = some fwd →
      fwd.method = reqDemo.method ∧ fwd.path = reqDemo.path ∧
      fwd.search = reqDemo.search ∧ fwd.body = reqDemo.body ∧
      ∀ kv ∈ fwd.headers, strStartsWith (lowerName kv.1) "x-scopeblind" = false) ∧
    (∀ msg fwd,
      Gateway.BackendOutcome.unreachable "connect ECONNREFUSED" =
        Gateway.BackendOutcome.unreachable msg →
      (Gateway.handleApi bindingsDemo
        (Gateway.VerifierOutcome.response 200 "" (some deniedJsonDemo))
        (Gateway.BackendOutcome.unreachable "connect ECONNREFUSED")
        reqDemo).2 = some fwd →
      (Gateway.handleApi bindingsDemo
        (Gateway.VerifierOutcome.response 200 "" (some deniedJsonDemo))
        (Gateway.BackendOutcome.unreachable "connect ECONNREFUSED")
        reqDemo).1.status = 502) :=
  gateway_forward_preserves_request bindingsDemo
    (Gateway.VerifierOutcome.response 200 "" (some deniedJsonDemo))
    (Gateway.BackendOutcome.unreachable "connect ECONNREFUSED")
    reqDemo (by decide)

/-- A widget state with a token already persisted for `site_42` but not
yet loaded into memory. -/
def storedStateDemo : Widget.State :=
  { token := none, storage := [("site_42", [1, 2, 3])], deviceIdentity := none }

/-- A widget state with nothing persisted. -/
def emptyStateDemo : Widget.State :=
  { token := none, storage := [], deviceIdentity := none }

/-- A mint environment in which every step succeeds and the finalized
token is `[9, 9, 9]`. -/
def freshMintEnvDemo : Widget.MintEnv :=
  { uuid := "00000000-0000-4000-8000-000000000001"
    blindOutcome := Except.ok [5, 5]
    issuerOutcome := Except.ok { status := 200, bodyEvalB64 := some "AAAA", text := "" }
    finalizeOutcome := Except.ok [9, 9, 9] }

/-- A mint environment whose issuer fetch throws (network failure). -/
def downMintEnvDemo : Widget.MintEnv :=
  { uuid := "00000000-0000-4000-8000-000000000002"
    blindOutcome := Except.ok [5, 5]
    issuerOutcome := Except.error "TypeError: Failed to fetch"
    finalizeOutcome := Except.ok [9, 9, 9] }

/-- A successful `ensureToken` leaves the returned token in the `token`
field of the resulting state. -/
theorem ensureToken_ok_state (siteId : String) (env : Widget.MintEnv)
    (st : Widget.State) (t : List Nat) (st2 : Widget.State) (n : Nat)
    (h : Widget.ensureToken siteId env st = (Except.ok t, st2, n)) :
    st2.token = some t := by
  unfold Widget.ensureToken at h
  repeat' split at h
  all_goals try simp_all
  all_goals (rcases h with ⟨rfl, rfl, rfl⟩; rfl)

/-- C2 counterexample: `ensureToken` consults no clock or epoch — its
inputs are the widget state and the oracle outcomes only, mirroring the
source, which reads nothing time-dependent.  With the token `[1, 2, 3]`
stored for `site_42`, a later call (in any environment, here one whose
mint would produce the different token `[9, 9, 9]`, as the second
conjunct shows it does on an empty store) still returns the stored
`[1, 2, 3]` — it does not re-mint after an epoch rollover, contradicting
the claim that the call would return a different token. -/
theorem ensureToken_no_epoch_remint_cex :
    (Widget.ensureToken "site_42" freshMintEnvDemo storedStateDemo).1 =
      Except.ok [1, 2, 3] ∧
    (Widget.ensureToken "site_42" freshMintEnvDemo emptyStateDemo).1 =
      Except.ok [9, 9, 9] ∧
    [1, 2, 3] ≠ [9, 9, 9] := by decide

/-- C2 (amended): two sequential `ensureToken` calls with no storage
tampering return byte-identical tokens, and the second call touches
neither the state nor the issuer; `ensureToken` performs no epoch check,
so a different token is returned only once the per-site entry is absent
from memory and storage, in which case a fresh mint returns the newly
issued token. -/
theorem ensureToken_idempotent_remint_on_clear
    (siteId : String) (env env2 : Widget.MintEnv) (st st2 : Widget.State)
    (t : List Nat) (n : Nat)
    (h1 : Widget.ensureToken siteId env st = (Except.ok t, st2, n)) :
    Widget.ensureToken siteId env2 st2 = (Except.ok t, st2, 0) ∧
    ∀ (st0 : Widget.State) (env3 : Widget.MintEnv) (breq : List Nat)
      (resp : Widget.IssuerResp) (s : String) (tok : List Nat),
      st0.token = none → Widget.lookupStore st0.storage siteId = none →
      env3.blindOutcome = Except.ok breq →
      env3.issuerOutcome = Except.ok resp →
      respOk resp.status = true → resp.bodyEvalB64 = some s →
      env3.finalizeOutcome = Except.ok tok →
      (Widget.ensureToken siteId env3 st0).1 = Except.ok tok := by
  constructor
  · have htok := ensureToken_ok_state siteId env st t st2 n h1
    unfold Widget.ensureToken
    rw [htok]
  · intro st0 env3 breq resp s tok h0 hls hb hi hok he hf
    simp [Widget.ensureToken, h0, hls, hb, hi, hok, he, hf]

/-- C2 witness: with `[1, 2, 3]` stored for `site_42`, the first call
returns it and the second call returns the identical bytes without
touching state or issuer; and on an empty store a successful mint
returns the fresh token. -/
theorem ensureToken_idempotent_remint_on_clear_witness :
    Widget.ensureToken "site_42" freshMintEnvDemo
      { token := some [1, 2, 3], storage := [("site_42", [1, 2, 3])],
        deviceIdentity := none } =
      (Except.ok [1, 2, 3],
        { token := some [1, 2, 3], storage := [("site_42", [1, 2, 3])],
          deviceIdentity := none }, 0) ∧
    ∀ (st0 : Widget.State) (env3 : Widget.MintEnv) (breq : List Nat)
      (resp : Widget.IssuerResp) (s : String) (tok : List Nat),
      st0.token = none → Widget.lookupStore st0.storage "site_42" = none →
      env3.blindOutcome = Except.ok breq →
      env3.issuerOutcome = Except.ok resp →
      respOk resp.status = true → resp.bodyEvalB64 = some s →
      env3.finalizeOutcome = Except.ok tok →
      (Widget.ensureToken "site_42" env3 st0).1 = Except.ok tok :=
  ensureToken_idempotent_remint_on_clear "site_42" freshMintEnvDemo
    freshMintEnvDemo storedStateDemo
    { token := some [1, 2, 3], storage := [("site_42", [1, 2, 3])],
      deviceIdentity := none }
    [1, 2, 3] 0 (by decide)

/-- C6: when the in-memory and stored token are absent and the blind step
has produced a request, every failing mint surfaces as an error with the
widget state unchanged (no token cached in memory or storage), the
issuer is contacted at most once (no retry), and each failure kind —
thrown issuer fetch, non-2xx issuer response, failing finalize — produces
the corresponding error. -/
theorem ensureToken_mint_failure_no_cache
    (siteId : String) (env : Widget.MintEnv) (st : Widget.State)
    (breq : List Nat)
    (h0 : st.token = none) (h1 : Widget.lookupStore st.storage siteId = none)
    (hblind : env.blindOutcome = Except.ok breq) :
    (∀ e st2 n, Widget.ensureToken siteId env st = (Except.error e, st2, n) →
      st2 = st) ∧
    (Widget.ensureToken siteId env st).2.2 ≤ 1 ∧
    (∀ e, env.issuerOutcome = Except.error e →
      (Widget.ensureToken siteId env st).1 = Except.error e) ∧
    (∀ resp, env.issuerOutcome = Except.ok resp → respOk resp.status = false →
      (Widget.ensureToken siteId env st).1 =
        Except.error ("Failed to issue token: " ++ toString resp.status
          ++ " - " ++ resp.text)) ∧
    (∀ resp e s, env.issuerOutcome = Except.ok resp →
      respOk resp.status = true → resp.bodyEvalB64 = some s →
      env.finalizeOutcome = Except.error e →
      (Widget.ensureToken siteId env st).1 = Except.error e) := by
  refine ⟨?_, ?_, ?_, ?_, ?_⟩
  · intro e st2 n h
    unfold Widget.ensureToken at h
    rw [h0, h1, hblind] at h
    repeat' split at h
    all_goals simp_all
  · unfold Widget.ensureToken
    rw [h0, h1, hblind]
    repeat' split
    all_goals simp
  · intro e he
    simp [Widget.ensureToken, h0, h1, hblind, he]
  · intro resp hi hbad
    simp [Widget.ensureToken, h0, h1, hblind, hi, hbad]
  · intro resp e s hi hok hs hf
    simp [Widget.ensureToken, h0, h1, hblind, hi, hok, hs, hf]

/-- C6 witness: on an empty store with the issuer unreachable, the mint
fails with the thrown error, the state is unchanged, and the issuer was
contacted exactly once. -/
theorem ensureToken_mint_failure_no_cache_witness :
    (∀ e st2 n, Widget.ensureToken "site_42" downMintEnvDemo emptyStateDemo =
        (Except.error e, st2, n) → st2 = emptyStateDemo) ∧
    (Widget.ensureToken "site_42" downMintEnvDemo emptyStateDemo).2.2 ≤ 1 ∧
    (∀ e, downMintEnvDemo.issuerOutcome = Except.error e →
      (Widget.ensureToken "site_42" downMintEnvDemo emptyStateDemo).1 =
        Except.error e) ∧
    (∀ resp, downMintEnvDemo.issuerOutcome = Except.ok resp →
      respOk resp.status = false →
      (Widget.ensureToken "site_42" downMintEnvDemo emptyStateDemo).1 =
        Except.error ("Failed to issue token: " ++ toString resp.status
          ++ " - " ++ resp.text)) ∧
    (∀ resp e s, downMintEnvDemo.issuerOutcome = Except.ok resp →
      respOk resp.status = true → resp.bodyEvalB64 = some s →
      downMintEnvDemo.finalizeOutcome = Except.error e →
      (Widget.ensureToken "site_42" downMintEnvDemo emptyStateDemo).1 =
        Except.error e) :=
  ensureToken_mint_failure_no_cache "site_42" downMintEnvDemo emptyStateDemo
    [5, 5] (by decide) (by decide) (by decide)

/-- The demo widget configuration. -/
def cfgDemo : Widget.Config :=
  { siteId := "site_42", issuerUrl := "https://issuer.scopeblind.com",
    proxyUrl := "https://proxy.scopeblind.com", showBadge := true }

/-- A holder-binding state with a fallback device id persisted and no
key material. -/
def hbStDemo : HolderBinding.St := { idb := [], deviceIdLS := some "dev-1" }

/-- A fresh holder-binding state: nothing persisted. -/
def hbStEmptyDemo : HolderBinding.St := { idb := [], deviceIdLS := none }

/-- Holder-binding platform oracles with WebCrypto unavailable. -/
def hbEnvDemo : HolderBinding.Env :=
  { subtleAvailable := false, openDB := Except.ok (),
    generateKey := Except.error "NotSupportedError", uuid := "dev-1",
    sign := fun _ => Except.error "NotSupportedError" }

/-- The widget state after the first successful `ensureToken` at
`storedStateDemo`. -/
def loadedStateDemo : Widget.State :=
  { token := some [1, 2, 3], storage := [("site_42", [1, 2, 3])],
    deviceIdentity := none }

/-- A fetch environment whose network call returns a 429 response. -/
def fetchEnvDemo429 : Widget.FetchEnv :=
  { mint := freshMintEnvDemo, hb := hbEnvDemo, hbSt := hbStDemo,
    network := Except.ok { status := 429, payload := "quota exceeded" } }

/-- The demo URL parts: pathname `/chat` with a query string. -/
def urlDemo : Widget.URLParts := { pathname := "/chat", search := "?x=1" }

/-- The demo fetch options. -/
def optsDemo : Widget.FetchOptions :=
  { method := some "POST", body := some "hello",
    headers := [("Content-Type", "application/json")] }

/-- C5: after a successful token step, every network response — a 429 or
402 included — is returned to the caller unmodified, with the
quota-exceeded modal shown exactly for the 429/402 statuses; the fetch
propagates an error exactly when the transport throws. -/
theorem widget_fetch_quota_notification
    (cfg : Widget.Config) (env : Widget.FetchEnv) (st : Widget.State)
    (u : Widget.URLParts) (opts : Widget.FetchOptions)
    (t : List Nat) (st1 : Widget.State) (n : Nat)
    (hmint : Widget.ensureToken cfg.siteId env.mint st = (Except.ok t, st1, n)) :
    (∀ r : Widget.NetResponse, env.network = Except.ok r →
      ∃ tr : Widget.FetchTrace,
        Widget.widgetFetch cfg env st u opts = (Except.ok (r, tr), st1) ∧
        (tr.quotaShown = true ↔ (r.status = 429 ∨ r.status = 402))) ∧
    (∀ e, env.network = Except.error e →
      Widget.widgetFetch cfg env st u opts = (Except.error e, st1)) := by
  constructor
  · intro r hr
    unfold Widget.widgetFetch
    rw [hmint, hr]
    exact ⟨_, rfl, by simp⟩
  · intro e he
    unfold Widget.widgetFetch
    rw [hmint, he]

/-- C5 witness: at the demo inputs with a 429 network response, the
response comes back unchanged and the quota modal is shown. -/
theorem widget_fetch_quota_notification_witness :
    (∀ r : Widget.NetResponse, fetchEnvDemo429.network = Except.ok r →
      ∃ tr : Widget.FetchTrace,
        Widget.widgetFetch cfgDemo fetchEnvDemo429 storedStateDemo urlDemo
          optsDemo = (Except.ok (r, tr), loadedStateDemo) ∧
        (tr.quotaShown = true ↔ (r.status = 429 ∨ r.status = 402))) ∧
    (∀ e, fetchEnvDemo429.network = Except.error e →
      Widget.widgetFetch cfgDemo fetchEnvDemo429 storedStateDemo urlDemo
        optsDemo = (Except.error e, loadedStateDemo)) :=
  widget_fetch_quota_notification cfgDemo fetchEnvDemo429 storedStateDemo
    urlDemo optsDemo [1, 2, 3] loadedStateDemo 0 (by decide)

/-- C10: the widget fetch reads only the pathname of the parsed URL: the
proxied target URL is `proxyUrl / siteId pathname` with the query string
dropped, the spend proof is computed over `method:pathname`, the
holder-binding signature is computed over the pathname as well, and the
whole fetch is invariant under changes to the query string. -/
theorem widget_fetch_uses_pathname_only
    (cfg : Widget.Config) (env : Widget.FetchEnv) (st : Widget.State)
    (u : Widget.URLParts) (opts : Widget.FetchOptions)
    (t : List Nat) (st1 : Widget.State) (n : Nat)
    (hmint : Widget.ensureToken cfg.siteId env.mint st = (Except.ok t, st1, n)) :
    (∀ r tr, Widget.widgetFetch cfg env st u opts = (Except.ok (r, tr), st1) →
      tr.targetUrl = cfg.proxyUrl ++ "/" ++ cfg.siteId ++ u.pathname ∧
      headerLookup tr.headers "X-ScopeBlind-Proof" =
        some (generateSpendProof (st1.token.getD [])
          (opts.method.getD "GET" ++ ":" ++ u.pathname)) ∧
      (∀ sig, HolderBinding.signRequest env.hb env.hbSt
          (opts.method.getD "GET") u.pathname opts.body = some sig →
        headerLookup tr.headers "X-ScopeBlind-Signature" = some sig)) ∧
    (∀ s2, Widget.widgetFetch cfg env st { pathname := u.pathname, search := s2 }
        opts = Widget.widgetFetch cfg env st u opts) := by
  constructor
  · intro r tr hf
    unfold Widget.widgetFetch at hf
    rw [hmint] at hf
    cases hn : env.network with
    | error e =>
      rw [hn] at hf
      simp at hf
    | ok r2 =>
      rw [hn] at hf
      simp only [Prod.mk.injEq, Except.ok.injEq] at hf
      obtain ⟨⟨hr2, htr⟩, -⟩ := hf
      subst htr
      refine ⟨rfl, ?_, ?_⟩
      · show headerLookup
          (match HolderBinding.signRequest env.hb env.hbSt
              (opts.method.getD "GET") u.pathname opts.body with
            | some sig => setHeader (setHeader (setHeader opts.headers
                "X-ScopeBlind-Proof" (generateSpendProof (st1.token.getD [])
                  (opts.method.getD "GET" ++ ":" ++ u.pathname)))
                "X-ScopeBlind-Site" cfg.siteId) "X-ScopeBlind-Signature" sig
            | none =>
              match st1.deviceIdentity with
              | some di =>
                match di.deviceId with
                | some dId =>
                  if di.kind = IdentityKind.fallback then
                    setHeader (setHeader (setHeader opts.headers
                      "X-ScopeBlind-Proof" (generateSpendProof (st1.token.getD [])
                        (opts.method.getD "GET" ++ ":" ++ u.pathname)))
                      "X-ScopeBlind-Site" cfg.siteId) "X-ScopeBlind-Device" dId
                  else
                    setHeader (setHeader opts.headers "X-ScopeBlind-Proof"
                      (generateSpendProof (st1.token.getD [])
                        (opts.method.getD "GET" ++ ":" ++ u.pathname)))
                      "X-ScopeBlind-Site" cfg.siteId
                | none =>
                  setHeader (setHeader opts.headers "X-ScopeBlind-Proof"
                    (generateSpendProof (st1.token.getD [])
                      (opts.method.getD "GET" ++ ":" ++ u.pathname)))
                    "X-ScopeBlind-Site" cfg.siteId
              | none =>
                setHeader (setHeader opts.headers "X-ScopeBlind-Proof"
                  (generateSpendProof (st1.token.getD [])
                    (opts.method.getD "GET" ++ ":" ++ u.pathname)))
                  "X-ScopeBlind-Site" cfg.siteId)
          "X-ScopeBlind-Proof" =
          some (generateSpendProof (st1.token.getD [])
            (opts.method.getD "GET" ++ ":" ++ u.pathname))
        split
        · rw [headerLookup_setHeader_ne _ _ _ _ (by decide),
            headerLookup_setHeader_ne _ _ _ _ (by decide),
            headerLookup_setHeader_self]
        · split
          · split
            · split
              · rw [headerLookup_setHeader_ne _ _ _ _ (by decide),
                  headerLookup_setHeader_ne _ _ _ _ (by decide),
                  headerLookup_setHeader_self]
              · rw [headerLookup_setHeader_ne _ _ _ _ (by decide),
                  headerLookup_setHeader_self]
            · rw [headerLookup_setHeader_ne _ _ _ _ (by decide),
                headerLookup_setHeader_self]
          · rw [headerLookup_setHeader_ne _ _ _ _ (by decide),
              headerLookup_setHeader_self]
      · intro sig hsig
        show headerLookup
          (match HolderBinding.signRequest env.hb env.hbSt
              (opts.method.getD "GET") u.pathname opts.body with
            | some sig => setHeader (setHeader (setHeader opts.headers
                "X-ScopeBlind-Proof" (generateSpendProof (st1.token.getD [])
                  (opts.method.getD "GET" ++ ":" ++ u.pathname)))
                "X-ScopeBlind-Site" cfg.siteId) "X-ScopeBlind-Signature" sig
            | none =>
              match st1.deviceIdentity with
              | some di =>
                match di.deviceId with
                | some dId =>
                  if di.kind = IdentityKind.fallback then
                    setHeader (setHeader (setHeader opts.headers
                      "X-ScopeBlind-Proof" (generateSpendProof (st1.token.getD [])
                        (opts.method.getD "GET" ++ ":" ++ u.pathname)))
                      "X-ScopeBlind-Site" cfg.siteId) "X-ScopeBlind-Device" dId
                  else
                    setHeader (setHeader opts.headers "X-ScopeBlind-Proof"
                      (generateSpendProof (st1.token.getD [])
                        (opts.method.getD "GET" ++ ":" ++ u.pathname)))
                      "X-ScopeBlind-Site" cfg.siteId
                | none =>
                  setHeader (setHeader opts.headers "X-ScopeBlind-Proof"
                    (generateSpendProof (st1.token.getD [])
                      (opts.method.getD "GET" ++ ":" ++ u.pathname)))
                    "X-ScopeBlind-Site" cfg.siteId
              | none =>
                setHeader (setHeader opts.headers "X-ScopeBlind-Proof"
                  (generateSpendProof (st1.token.getD [])
                    (opts.method.getD "GET" ++ ":" ++ u.pathname)))
                  "X-ScopeBlind-Site" cfg.siteId)
          "X-ScopeBlind-Signature" = some sig
        rw [hsig]
        exact headerLookup_setHeader_self _ _ _
  · intro s2
    rfl

/-- C10 witness: at the demo inputs the target URL is the proxy URL plus
site id plus pathname, with the query string dropped, and the proof
header carries the spend proof over `POST:/chat`; the run with query
`?other=2` equals the run with query `?x=1`. -/
theorem widget_fetch_uses_pathname_only_witness :
    (∀ r tr, Widget.widgetFetch cfgDemo fetchEnvDemo429 storedStateDemo urlDemo
        optsDemo = (Except.ok (r, tr), loadedStateDemo) →
      tr.targetUrl = cfgDemo.proxyUrl ++ "/" ++ cfgDemo.siteId ++ urlDemo.pathname ∧
      headerLookup tr.headers "X-ScopeBlind-Proof" =
        some (generateSpendProof (loadedStateDemo.token.getD [])
          (optsDemo.method.getD "GET" ++ ":" ++ urlDemo.pathname)) ∧
      (∀ sig, HolderBinding.signRequest fetchEnvDemo429.hb fetchEnvDemo429.hbSt
          (optsDemo.method.getD "GET") urlDemo.pathname optsDemo.body = some sig →
        headerLookup tr.headers "X-ScopeBlind-Signature" = some sig)) ∧
    (∀ s2, Widget.widgetFetch cfgDemo fetchEnvDemo429 storedStateDemo
        { pathname := urlDemo.pathname, search := s2 } optsDemo =
      Widget.widgetFetch cfgDemo fetchEnvDemo429 storedStateDemo urlDemo
        optsDemo) :=
  widget_fetch_uses_pathname_only cfgDemo fetchEnvDemo429 storedStateDemo
    urlDemo optsDemo [1, 2, 3] loadedStateDemo 0 (by decide)

/-- When WebCrypto is absent or the strong-identity attempt throws,
`getOrCreateDeviceIdentity` runs the fallback path. -/
theorem getOrCreate_fallback_of_fail (env : HolderBinding.Env)
    (st : HolderBinding.St)
    (hfail : env.subtleAvailable = false ∨
      ∃ e, HolderBinding.getWebCryptoIdentity env st = Except.error e) :
    HolderBinding.getOrCreateDeviceIdentity env st =
      HolderBinding.getFallbackIdentity env st := by
  unfold HolderBinding.getOrCreateDeviceIdentity
  rcases hfail with h | ⟨e, h⟩
  · simp [h]
  · cases hsub : env.subtleAvailable
    · simp
    · simp [h]

/-- C7: when secure key generation is unavailable or the strong-identity
attempt fails, `getOrCreateDeviceIdentity` still succeeds with a
fallback identity whose device identifier is present; the identifier is
stable — any later call in a still-degraded environment returns the
identical identity and state; in that state `signRequest` returns `none`
for every environment; and any failing signing primitive degrades
`signRequest` to `none` in every state rather than raising. -/
theorem device_identity_weak_fallback (env : HolderBinding.Env)
    (st : HolderBinding.St)
    (hfail : env.subtleAvailable = false ∨
      ∃ e, HolderBinding.getWebCryptoIdentity env st = Except.error e)
    (hnk : HolderBinding.idbGet st "privateKey" = none) :
    ∃ dId : String,
      (HolderBinding.getOrCreateDeviceIdentity env st).1 =
        { kind := IdentityKind.fallback, publicKey := none,
          deviceId := some dId } ∧
      (∀ env2, (env2.subtleAvailable = false ∨
          ∃ e, HolderBinding.getWebCryptoIdentity env2
            (HolderBinding.getOrCreateDeviceIdentity env st).2 =
              Except.error e) →
        HolderBinding.getOrCreateDeviceIdentity env2
          (HolderBinding.getOrCreateDeviceIdentity env st).2 =
          ((HolderBinding.getOrCreateDeviceIdentity env st).1,
            (HolderBinding.getOrCreateDeviceIdentity env st).2)) ∧
      (∀ env3 m p b, HolderBinding.signRequest env3
        (HolderBinding.getOrCreateDeviceIdentity env st).2 m p b = none) ∧
      (∀ env4 st4 m p b e,
        env4.sign (textEncode (m ++ ":" ++ p ++ ":" ++ b.getD "")) =
          Except.error e →
        HolderBinding.signRequest env4 st4 m p b = none) := by
  have hsign4 : ∀ (env4 : HolderBinding.Env) (st4 : HolderBinding.St) m p b e,
      env4.sign (textEncode (m ++ ":" ++ p ++ ":" ++ b.getD "")) =
        Except.error e →
      HolderBinding.signRequest env4 st4 m p b = none := by
    intro env4 st4 m p b e hserr
    unfold HolderBinding.signRequest
    split
    · rfl
    · split
      · rfl
      · rfl
      · simp [hserr]
  have hred := getOrCreate_fallback_of_fail env st hfail
  rw [hred]
  have hsign3 : ∀ (st3 : HolderBinding.St),
      HolderBinding.idbGet st3 "privateKey" = none →
      ∀ (env3 : HolderBinding.Env) m p b,
      HolderBinding.signRequest env3 st3 m p b = none := by
    intro st3 h3 env3 m p b
    unfold HolderBinding.signRequest
    split
    · rfl
    · rw [h3]
  cases hls : st.deviceIdLS with
  | some dId0 =>
    refine ⟨dId0, ?_, ?_, ?_, hsign4⟩
    · simp [HolderBinding.getFallbackIdentity, hls]
    · intro env2 hf2
      have hst : (HolderBinding.getFallbackIdentity env st).2 = st := by
        simp [HolderBinding.getFallbackIdentity, hls]
      rw [hst] at hf2 ⊢
      rw [getOrCreate_fallback_of_fail env2 st hf2]
      simp [HolderBinding.getFallbackIdentity, hls]
    · intro env3 m p b
      have hst : (HolderBinding.getFallbackIdentity env st).2 = st := by
        simp [HolderBinding.getFallbackIdentity, hls]
      rw [hst]
      exact hsign3 st hnk env3 m p b
  | none =>
    refine ⟨env.uuid, ?_, ?_, ?_, hsign4⟩
    · simp [HolderBinding.getFallbackIdentity, hls]
    · intro env2 hf2
      have hst : (HolderBinding.getFallbackIdentity env st).2 =
          { st with deviceIdLS := some env.uuid } := by
        simp [HolderBinding.getFallbackIdentity, hls]
      rw [hst] at hf2 ⊢
      rw [getOrCreate_fallback_of_fail env2 _ hf2]
      simp [HolderBinding.getFallbackIdentity, hls]
    · intro env3 m p b
      have hst : (HolderBinding.getFallbackIdentity env st).2 =
          { st with deviceIdLS := some env.uuid } := by
        simp [HolderBinding.getFallbackIdentity, hls]
      rw [hst]
      exact hsign3 _ hnk env3 m p b

/-- C7 witness: with WebCrypto unavailable and nothing persisted, the
fallback identity is created with a device id, stays stable, and signing
degrades to `none`. -/
theorem device_identity_weak_fallback_witness :
    ∃ dId : String,
      (HolderBinding.getOrCreateDeviceIdentity hbEnvDemo hbStEmptyDemo).1 =
        { kind := IdentityKind.fallback, publicKey := none,
          deviceId := some dId } ∧
      (∀ env2, (env2.subtleAvailable = false ∨
          ∃ e, HolderBinding.getWebCryptoIdentity env2
            (HolderBinding.getOrCreateDeviceIdentity hbEnvDemo hbStEmptyDemo).2 =
              Except.error e) →
        HolderBinding.getOrCreateDeviceIdentity env2
          (HolderBinding.getOrCreateDeviceIdentity hbEnvDemo hbStEmptyDemo).2 =
          ((HolderBinding.getOrCreateDeviceIdentity hbEnvDemo hbStEmptyDemo).1,
            (HolderBinding.getOrCreateDeviceIdentity hbEnvDemo hbStEmptyDemo).2)) ∧
      (∀ env3 m p b, HolderBinding.signRequest env3
        (HolderBinding.getOrCreateDeviceIdentity hbEnvDemo hbStEmptyDemo).2
        m p b = none) ∧
      (∀ env4 st4 m p b e,
        env4.sign (textEncode (m ++ ":" ++ p ++ ":" ++ b.getD "")) =
          Except.error e →
        HolderBinding.signRequest env4 st4 m p b = none) :=
  device_identity_weak_fallback hbEnvDemo hbStEmptyDemo (Or.inl rfl) rfl

/-- C8 counterexample: after a blind step and a successful finalize with
the demo library instantiation, the client still retains the blinding
context in `finData` (it is not discarded), and a second finalize with
the same retained context succeeds and returns the identical result —
contradicting the claim that the context is consumed by exactly one
finalize and discarded afterwards. -/
theorem voprf_context_not_discarded_cex :
    ((VoprfClient.finalize libDemo
      ((VoprfClient.generateBlindRequest libDemo { finData := none } "in").2)
      [7]).2).finData = some [105, 110] ∧
    (VoprfClient.finalize libDemo
      ((VoprfClient.generateBlindRequest libDemo { finData := none } "in").2)
      [7]).1 = Except.ok [105, 110, 7] ∧
    VoprfClient.finalize libDemo
      ((VoprfClient.finalize libDemo
        ((VoprfClient.generateBlindRequest libDemo { finData := none } "in").2)
        [7]).2) [7] =
      VoprfClient.finalize libDemo
        ((VoprfClient.generateBlindRequest libDemo { finData := none } "in").2)
        [7] := by decide

/-- C8 (amended): the blinding context lives in the in-memory `finData`
field of the client; `finalize` reads it but never clears or replaces
it — the state after `finalize` is exactly the state before, for every
library instantiation, so a repeated finalize with the retained context
is possible; the context is overwritten only by the next blind step, and
no operation writes it to durable storage. -/
theorem voprf_finalize_retains_context {Ctx : Type} (lib : VoprfLib Ctx)
    (st : VoprfClientState Ctx) (evaluation : List Nat) :
    (VoprfClient.finalize lib st evaluation).2 = st ∧
    ∀ input, ((VoprfClient.generateBlindRequest lib st input).2).finData =
      some (lib.blind (textEncode input)).1 := by
  constructor
  · unfold VoprfClient.finalize
    split
    · rfl
    · split
      · rfl
      · rfl
  · intro input
    rfl

/-- C4: the mock spend proof is the unkeyed SHA-256 of the plain
concatenation of token and request data, so it does not injectively bind
the pair — the distinct tokens `0x01` and `0x01 0x41` produce the
identical proof for suitable request data, because the concatenations
coincide byte for byte.  This exhibits the construction the source
itself labels a mock: an unkeyed hash of public request data and the
token, computable by anyone holding the token, with no zero-knowledge or
keyed structure. -/
theorem generateSpendProof_concat_ambiguous :
    [1] ≠ [1, 65] ∧
    [1] ++ textEncode "AB" = [1, 65] ++ textEncode "B" ∧
    generateSpendProof [1] "AB" = generateSpendProof [1, 65] "B" := by
  refine ⟨by decide, by decide, ?_⟩
  unfold generateSpendProof
  exact congrArg (fun l => base64encode (sha256 l)) (by decide)

end ScopeBlind

set_option maxRecDepth 4096 in
/-- SHA-256 sanity check against the standard empty-message test vector. -/
example : ScopeBlind.sha256 [] =
    [227, 176, 196, 66, 152, 252, 28, 20, 154, 251, 244, 200,
     153, 111, 185, 36, 39, 174, 65, 228, 100, 155, 147, 76,
     164, 149, 153, 27, 120, 82, 184, 85] := by decide
